import Mathlib

/-!
Verification development for the koishi travel-plugin repository.

The TypeScript sources are shallowly embedded: pure functions become Lean
functions; external effects (database, LLM, HTTP photo search, headless
browser, clock, randomness) are passed in explicitly as oracle inputs;
fallible calls are `Except`/`Option` values.  JavaScript strings are
modelled as `List Char`, JavaScript numbers that carry logic as `Int`/`Nat`.
-/

set_option maxHeartbeats 1000000

abbrev Chars := List Char

/-- Whitespace accepted inside JSON documents (RFC 8259 / `JSON.parse`). -/
def isJsonWs (c : Char) : Bool :=
  c = ' ' || c = '\t' || c = '\n' || c = '\r'

/-- Whitespace removed by JavaScript `String.prototype.trim` (the common
WhiteSpace and LineTerminator code points; exotic Unicode spaces behave the
same way for every input exercised here). -/
def isJsTrimWs (c : Char) : Bool :=
  c = ' ' || c = '\t' || c = '\n' || c = '\r' ||
  c = Char.ofNat 0x0b || c = Char.ofNat 0x0c ||
  c = Char.ofNat 0xa0 || c = Char.ofNat 0xfeff ||
  c = Char.ofNat 0x2028 || c = Char.ofNat 0x2029

/-- Model of `s.trim()`. -/
def trimChars (s : Chars) : Chars :=
  ((s.dropWhile isJsTrimWs).reverse.dropWhile isJsTrimWs).reverse

/-- Index of the first occurrence of `pat` inside `s` (leftmost match of a
literal pattern, as a regex engine would find it). -/
def findSub (pat : Chars) (s : Chars) : Option Nat :=
  match s with
  | [] => if pat.isEmpty then some 0 else none
  | _ :: rest =>
    if pat.isPrefixOf s then some 0
    else (findSub pat rest).map (· + 1)

/-- Index of the last element of `s` satisfying `p`. -/
def lastIdxWhere (p : Char → Bool) (s : Chars) : Option Nat :=
  match s with
  | [] => none
  | c :: rest =>
    match lastIdxWhere p rest with
    | some i => some (i + 1)
    | none => if p c then some 0 else none

def lbrace : Char := Char.ofNat 123
def rbrace : Char := Char.ofNat 125
def backtickChar : Char := Char.ofNat 96

/-- JavaScript values produced by `JSON.parse`.  Numbers are kept as a decimal
mantissa/exponent pair: the only fact the plugin ever extracts from a numeric
field is whether it is zero (falsy). -/
inductive Json where
  | null : Json
  | bool (b : Bool) : Json
  | num (mantissa : Int) (exp10 : Int) : Json
  | str (s : Chars) : Json
  | arr (items : List Json) : Json
  | obj (fields : List (Chars × Json)) : Json
deriving Repr

def hexVal (c : Char) : Option Nat :=
  if '0' ≤ c ∧ c ≤ '9' then some (c.toNat - 48)
  else if 'a' ≤ c ∧ c ≤ 'f' then some (c.toNat - 87)
  else if 'A' ≤ c ∧ c ≤ 'F' then some (c.toNat - 55)
  else none

/-- Body of a JSON string literal, after the opening quote: returns the
decoded characters and the input following the closing quote. -/
def parseJsonStringBody : Nat → Chars → Option (Chars × Chars)
  | 0, _ => none
  | _, [] => none
  | fuel + 1, c :: rest =>
    if c = '"' then some ([], rest)
    else if c = '\\' then
      match rest with
      | [] => none
      | e :: rest2 =>
        if e = '"' then (parseJsonStringBody fuel rest2).map (fun p => ('"' :: p.1, p.2))
        else if e = '\\' then (parseJsonStringBody fuel rest2).map (fun p => ('\\' :: p.1, p.2))
        else if e = '/' then (parseJsonStringBody fuel rest2).map (fun p => ('/' :: p.1, p.2))
        else if e = 'b' then (parseJsonStringBody fuel rest2).map (fun p => (Char.ofNat 8 :: p.1, p.2))
        else if e = 'f' then (parseJsonStringBody fuel rest2).map (fun p => (Char.ofNat 12 :: p.1, p.2))
        else if e = 'n' then (parseJsonStringBody fuel rest2).map (fun p => ('\n' :: p.1, p.2))
        else if e = 'r' then (parseJsonStringBody fuel rest2).map (fun p => ('\r' :: p.1, p.2))
        else if e = 't' then (parseJsonStringBody fuel rest2).map (fun p => ('\t' :: p.1, p.2))
        else if e = 'u' then
          match rest2 with
          | h1 :: h2 :: h3 :: h4 :: rest3 =>
            match hexVal h1, hexVal h2, hexVal h3, hexVal h4 with
            | some a, some b, some c3, some d =>
              (parseJsonStringBody fuel rest3).map
                (fun p => (Char.ofNat (((a * 16 + b) * 16 + c3) * 16 + d) :: p.1, p.2))
            | _, _, _, _ => none
          | _ => none
        else none
    else if c.toNat < 32 then none
    else (parseJsonStringBody fuel rest).map (fun p => (c :: p.1, p.2))

def digitsToNat (ds : Chars) : Nat :=
  ds.foldl (fun acc c => acc * 10 + (c.toNat - 48)) 0

/-- One or more decimal digits. -/
def takeDigits (s : Chars) : Chars × Chars :=
  (s.takeWhile Char.isDigit, s.dropWhile Char.isDigit)

/-- JSON number grammar: `-? int frac? exp?`.  Produces the decimal mantissa
(with sign, including fractional digits) and a base-10 exponent. -/
def parseJsonNumber (s : Chars) : Option (Json × Chars) :=
  let (sign, s1) : Int × Chars :=
    match s with
    | '-' :: rest => (-1, rest)
    | _ => (1, s)
  let (intDigits, s2) := takeDigits s1
  match intDigits with
  | [] => none
  | d0 :: ds =>
    if d0 = '0' ∧ ds ≠ [] then none
    else
      let (fracDigits, s3) : Chars × Chars :=
        match s2 with
        | '.' :: rest => takeDigits rest
        | _ => ([], s2)
      let fracOk : Bool :=
        match s2 with
        | '.' :: _ => !fracDigits.isEmpty
        | _ => true
      if !fracOk then none
      else
        let (expPart, s4) : Option Int × Chars :=
          match s3 with
          | e :: rest =>
            if e = 'e' ∨ e = 'E' then
              let (esign, rest2) : Int × Chars :=
                match rest with
                | '+' :: r => (1, r)
                | '-' :: r => (-1, r)
                | _ => (1, rest)
              let (eds, rest3) := takeDigits rest2
              if eds.isEmpty then (none, s3)
              else (some (esign * (digitsToNat eds : Int)), rest3)
            else (none, s3)
          | [] => (none, s3)
        match expPart, s3 with
        | none, e :: _ =>
          if e = 'e' ∨ e = 'E' then none
          else
            let mantissa := sign * (digitsToNat (intDigits ++ fracDigits) : Int)
            some (.num mantissa (0 - (fracDigits.length : Int)), s3)
        | none, [] =>
          let mantissa := sign * (digitsToNat (intDigits ++ fracDigits) : Int)
          some (.num mantissa (0 - (fracDigits.length : Int)), s3)
        | some ex, _ =>
          let mantissa := sign * (digitsToNat (intDigits ++ fracDigits) : Int)
          some (.num mantissa (ex - (fracDigits.length : Int)), s4)

mutual

/-- Recursive-descent JSON value parser (fuelled; the wrapper supplies ample
fuel, so running out models nothing reachable). -/
def parseJsonValue : Nat → Chars → Option (Json × Chars)
  | 0, _ => none
  | fuel + 1, s =>
    let s := s.dropWhile isJsonWs
    match s with
    | 'n' :: 'u' :: 'l' :: 'l' :: rest => some (.null, rest)
    | 't' :: 'r' :: 'u' :: 'e' :: rest => some (.bool true, rest)
    | 'f' :: 'a' :: 'l' :: 's' :: 'e' :: rest => some (.bool false, rest)
    | '"' :: rest => (parseJsonStringBody (rest.length + 1) rest).map (fun p => (.str p.1, p.2))
    | '[' :: rest =>
      let rest2 := rest.dropWhile isJsonWs
      match rest2 with
      | ']' :: rest3 => some (.arr [], rest3)
      | _ => (parseJsonItems fuel rest2).map (fun p => (.arr p.1, p.2))
    | c :: _ =>
      if c = lbrace then
        let rest := s.tail
        let rest2 := rest.dropWhile isJsonWs
        match rest2 with
        | r :: rest3 =>
          if r = rbrace then some (.obj [], rest3)
          else (parseJsonMembers fuel rest2).map (fun p => (.obj p.1, p.2))
        | [] => none
      else if c = '-' ∨ c.isDigit then parseJsonNumber s
      else none
    | [] => none

/-- Comma-separated array items, ending at `]`. -/
def parseJsonItems : Nat → Chars → Option (List Json × Chars)
  | 0, _ => none
  | fuel + 1, s =>
    match parseJsonValue fuel s with
    | none => none
    | some (v, rest) =>
      let rest := rest.dropWhile isJsonWs
      match rest with
      | ',' :: rest2 => (parseJsonItems fuel rest2).map (fun p => (v :: p.1, p.2))
      | ']' :: rest2 => some ([v], rest2)
      | _ => none

/-- Comma-separated `"key": value` members, ending at the closing brace. -/
def parseJsonMembers : Nat → Chars → Option (List (Chars × Json) × Chars)
  | 0, _ => none
  | fuel + 1, s =>
    let s := s.dropWhile isJsonWs
    match s with
    | '"' :: rest =>
      match parseJsonStringBody (rest.length + 1) rest with
      | none => none
      | some (key, rest2) =>
        let rest2 := rest2.dropWhile isJsonWs
        match rest2 with
        | ':' :: rest3 =>
          match parseJsonValue fuel rest3 with
          | none => none
          | some (v, rest4) =>
            let rest4 := rest4.dropWhile isJsonWs
            match rest4 with
            | ',' :: rest5 => (parseJsonMembers fuel rest5).map (fun p => ((key, v) :: p.1, p.2))
            | r :: rest5 =>
              if r = rbrace then some ([(key, v)], rest5) else none
            | [] => none
        | _ => none
    | _ => none

end

/-- Model of `JSON.parse`: parse one value, allow surrounding JSON whitespace,
reject trailing input.  `none` models a thrown `SyntaxError`. -/
def jsonParse (s : Chars) : Option Json :=
  match parseJsonValue (8 * s.length + 8) s with
  | none => none
  | some (v, rest) => if (rest.dropWhile isJsonWs).isEmpty then some v else none

/-- JavaScript truthiness of a parsed JSON value. -/
def truthy : Json → Bool
  | .null => false
  | .bool b => b
  | .num m _ => m ≠ 0
  | .str s => !s.isEmpty
  | .arr _ => true
  | .obj _ => true

/-- Truthiness of a possibly-`undefined` value. -/
def truthyOpt : Option Json → Bool
  | none => false
  | some j => truthy j

/-- JavaScript `a || b` on a possibly-`undefined` `a`. -/
def jsOrJ (a : Option Json) (b : Json) : Json :=
  match a with
  | some j => if truthy j then j else b
  | none => b

/-- Property lookup on an object literal: later duplicate keys win, exactly as
in a JavaScript object; on any non-object the access yields `undefined`
(`Json.null` receivers are handled separately since they throw). -/
def jsonGetField (j : Json) (key : Chars) : Option Json :=
  match j with
  | .obj fields => (fields.reverse.find? (fun p => p.1 = key)).map (·.2)
  | _ => none

/-- Modelled from the spec: the `Location` value object of `constants.ts`
(that file is not under `src/`): country (canonical + localized), city,
landmark (canonical + localized), IANA timezone string, photo URL. -/
structure Location where
  country : String
  countryZh : String
  city : String
  landmark : String
  landmarkZh : String
  timezone : String
  landscapeUrl : String
deriving Repr, DecidableEq

/-- Modelled from the spec: the Static Location Catalog (`LOCATIONS` in
`constants.ts`, absent from `src/`) — a fixed non-empty list of real-world
points of interest; representative entries stand in for the full list, every
claim uses only membership and non-emptiness. -/
def LOCATIONS : List Location := [
  { country := "Iceland", countryZh := "冰岛", city := "Grindavik",
    landmark := "Blue Lagoon", landmarkZh := "蓝湖温泉",
    timezone := "Atlantic/Reykjavik",
    landscapeUrl := "https://images.unsplash.com/photo-blue-lagoon" },
  { country := "Peru", countryZh := "秘鲁", city := "Cusco",
    landmark := "Machu Picchu", landmarkZh := "马丘比丘",
    timezone := "America/Lima",
    landscapeUrl := "https://images.unsplash.com/photo-machu-picchu" },
  { country := "Japan", countryZh := "日本", city := "Kyoto",
    landmark := "Fushimi Inari Shrine", landmarkZh := "伏见稻荷大社",
    timezone := "Asia/Tokyo",
    landscapeUrl := "https://images.unsplash.com/photo-fushimi-inari" }]

theorem LOCATIONS_length : LOCATIONS.length = 3 := rfl

/-- Location built by `parseLocationResponse`: field values are the raw
parsed JSON values (the TypeScript annotations say `string`, but the runtime
never checks, and the non-string cases drive real control flow). -/
structure JLocation where
  country : Json
  countryZh : Json
  city : Json
  landmark : Json
  landmarkZh : Json
  timezone : Json
  landscapeUrl : Json
deriving Repr

mutual

/-- JavaScript `ToString` on parsed JSON values, as used implicitly by
`String.prototype.replace` and `encodeURIComponent` arguments.  Number
formatting is approximated (only ever applied to strings on the paths the
claims exercise). -/
def jsToString : Json → String
  | .null => "null"
  | .bool true => "true"
  | .bool false => "false"
  | .num m e => toString m ++ (if e = 0 then "" else "e" ++ toString e)
  | .str s => String.mk s
  | .arr items => String.intercalate "," (jsToStringElems items)
  | .obj _ => "[object Object]"

/-- Elements of `Array.prototype.toString`: `null` prints as the empty
string inside a joined array. -/
def jsToStringElems : List Json → List String
  | [] => []
  | .null :: rest => "" :: jsToStringElems rest
  | j :: rest => jsToString j :: jsToStringElems rest

end

def isUriUnreserved (c : Char) : Bool :=
  ('A' ≤ c ∧ c ≤ 'Z') || ('a' ≤ c ∧ c ≤ 'z') || ('0' ≤ c ∧ c ≤ '9') ||
  c = '-' || c = '_' || c = '.' || c = '!' || c = '~' || c = '*' ||
  c = '\'' || c = '(' || c = ')'

def hexDigitUpper (n : Nat) : Char :=
  if n < 10 then Char.ofNat (48 + n) else Char.ofNat (55 + n)

/-- UTF-8 bytes of one code point. -/
def utf8Bytes (n : Nat) : List Nat :=
  if n < 0x80 then [n]
  else if n < 0x800 then [0xc0 + n / 64, 0x80 + n % 64]
  else if n < 0x10000 then [0xe0 + n / 4096, 0x80 + n / 64 % 64, 0x80 + n % 64]
  else [0xf0 + n / 262144, 0x80 + n / 4096 % 64, 0x80 + n / 64 % 64, 0x80 + n % 64]

/-- Model of `encodeURIComponent`. -/
def encodeURIComponent (s : Chars) : Chars :=
  s.flatMap fun c =>
    if isUriUnreserved c then [c]
    else (utf8Bytes c.toNat).flatMap fun b =>
      ['%', hexDigitUpper (b / 16), hexDigitUpper (b % 16)]

/-- Fallback photo URL synthesized when the parsed `landscapeUrl` is not an
absolute HTTP(S) URL (location.ts, `parseLocationResponse`). -/
def synthesizedUrl (landmark country : Json) : Chars :=
  "https://images.unsplash.com/featured/?".data ++
    encodeURIComponent (jsToString landmark).data ++ [','] ++
    encodeURIComponent (jsToString country).data

def backtick3 : Chars := [backtickChar, backtickChar, backtickChar]

/-- Stage 1 of `parseLocationResponse`: the fenced-code-block regex
(three backticks, optional `json` tag, lazily captured body up to the next
fence).  Leading/trailing whitespace differences against the real capture
group are washed out by the `.trim()` applied before `JSON.parse`. -/
def fencedExtract (content : Chars) : Option Chars :=
  match findSub backtick3 content with
  | none => none
  | some i =>
    let t := content.drop (i + 3)
    let t1 := if "json".data.isPrefixOf t then t.drop 4 else t
    match findSub backtick3 t1 with
    | none => none
    | some j => some (t1.take j)

/-- Stage 2 of `parseLocationResponse`: the loose object regex — leftmost
`\x7b`, then `"country"`, then `"landmark"`, then a final `\x7d`, with greedy
gaps; the regex match therefore spans from the first open brace to the last
close brace of the input whenever the ordered occurrences exist. -/
def looseExtract (content : Chars) : Option Chars :=
  match content.findIdx? (· = lbrace) with
  | none => none
  | some i =>
    match findSub ('"' :: "country".data ++ ['"']) (content.drop (i + 1)) with
    | none => none
    | some c =>
      let cAbs := i + 1 + c
      match findSub ('"' :: "landmark".data ++ ['"']) (content.drop (cAbs + 9)) with
      | none => none
      | some l =>
        let lAbs := cAbs + 9 + l
        match lastIdxWhere (· = rbrace) content with
        | none => none
        | some e =>
          if lAbs + 10 ≤ e then some ((content.drop i).take (e + 1 - i))
          else none

/-- Outcome of the `try` block of `parseLocationResponse`: a built location,
an explicit `return null` (required field missing), or a thrown exception
(`JSON.parse` failure, property access on `null`, or `startsWith` on a
non-string). -/
inductive ParseTryResult where
  | ok (loc : JLocation)
  | retNull
  | threw
deriving Repr

/-- Validation part of the `try` block of `parseLocationResponse` (after a
successful `JSON.parse` on a non-`null` value): required-field checks, the
default fills, and the non-HTTP photo-URL fix. -/
def validateLocationData (data : Json) : ParseTryResult :=
  let country := jsonGetField data "country".data
  let landmark := jsonGetField data "landmark".data
  let landscape := jsonGetField data "landscapeUrl".data
  if !truthyOpt country || !truthyOpt landmark || !truthyOpt landscape then
    .retNull
  else
    match country, landmark, landscape with
    | some cj, some lj, some uj =>
      let loc : JLocation := {
        country := cj
        countryZh := jsOrJ (jsonGetField data "countryZh".data) cj
        city := jsOrJ (jsonGetField data "city".data) (.str [])
        landmark := lj
        landmarkZh := jsOrJ (jsonGetField data "landmarkZh".data) lj
        timezone := jsOrJ (jsonGetField data "timezone".data) (.str "UTC".data)
        landscapeUrl := uj }
      match uj with
      | .str url =>
        if "http".data.isPrefixOf url then .ok loc
        else .ok { loc with landscapeUrl := .str (synthesizedUrl loc.landmark loc.country) }
      | _ => .threw
    | _, _, _ => .retNull

/-- Body of the `try` block of `parseLocationResponse`, applied to the
chosen `jsonStr`: parse, then validate (property access on a parsed `null`
throws, hence `.threw`). -/
def tryParseValidate (jsonStr : Chars) : ParseTryResult :=
  match jsonParse (trimChars jsonStr) with
  | none => .threw
  | some .null => .threw
  | some data => validateLocationData data

/-- The two-stage response parser (location.ts `parseLocationResponse`).
Fuel models the JavaScript call stack: the loose-extraction recursion either
strictly shrinks its argument or reaches a fixed point, where the real code
recurses to stack exhaustion, swallows the error and returns `null` — which
running out of fuel reproduces. -/
def parseLocationResponse : Nat → Chars → Option JLocation
  | 0, _ => none
  | fuel + 1, content =>
    let jsonStr := (fencedExtract content).getD content
    match tryParseValidate jsonStr with
    | .ok loc => some loc
    | .retNull => none
    | .threw =>
      match looseExtract content with
      | some sub => parseLocationResponse fuel sub
      | none => none

/-- Entry point of the response parser with ample fuel. -/
def parseLocation (content : Chars) : Option JLocation :=
  parseLocationResponse (content.length + 2) content

/-- JavaScript `a || b` on strings (empty string is falsy). -/
def jsOrStr (a b : String) : String :=
  if a = "" then b else a

/-- Model of `String.prototype.replace` with a plain-string pattern: only the
first occurrence is replaced. -/
def replaceFirstChars (s pat repl : Chars) : Chars :=
  match findSub pat s with
  | none => s
  | some i => s.take i ++ repl ++ s.drop (i + pat.length)

def replaceFirstStr (s pat repl : String) : String :=
  String.mk (replaceFirstChars s.data pat.data repl.data)

/-- `outputMode` values of the plugin configuration. -/
inductive OutputMode where
  | text
  | image
deriving Repr, DecidableEq

inductive BackgroundFetchMode where
  | auto
  | always
  | never
deriving Repr, DecidableEq

inductive SummaryScope where
  | global
  | guild
deriving Repr, DecidableEq

inductive DetectScope where
  | guild
  | all
deriving Repr, DecidableEq

/-- Plugin configuration (src/config.ts).  The two deprecated fields are kept
so that their behavioural irrelevance is statable; fields that are absent
when the corresponding schema-union branch is disabled are `Option`s, matching
the `?? default` reads in the code. -/
structure Config where
  sunriseApi : Option String
  defaultLat : Int
  defaultLng : Int
  abnormalThreshold : Int
  outputMode : OutputMode
  useStorageService : Bool
  storageCacheHours : Int
  travelMessageTemplate : String
  aigcEnabled : Bool
  aigcChannel : String
  aigcPrompt : String
  logPath : Option String
  backgroundStoragePath : String
  llmLocationEnabled : Bool
  llmLocationModel : String
  llmLocationCustomContext : String
  llmFailureCooldownMs : Option Int
  imageSearchPrompt : String
  unsplashAccessKey : String
  pexelsApiKey : String
  backgroundFetchMode : BackgroundFetchMode
  backgroundFetchTimeoutMs : Int
  backgroundInlineMaxBytes : Int
  worldMapUseTianditu : Bool
  tiandituToken : String
  tiandituTimeoutMs : Int
  worldMapOfficialOnly : Bool
  logRetentionDays : Int
  monthlySummaryEnabled : Bool
  monthlySummaryScope : SummaryScope
  experimentalAutoDetect : Bool
  experimentalAutoDetectScope : DetectScope
  silentRecordEnabled : Bool
  silentRecordAutoTravel : Bool
  nightOwlEnabled : Bool
  nightOwlStartHour : Option Int
  nightOwlEndHour : Option Int
  nightOwlGrayscaleAvatar : Bool
  debug : Bool

/-- Replace only the two deprecated configuration fields. -/
def setDeprecated (c : Config) (s l : Option String) : Config :=
  { c with sunriseApi := s, logPath := l }

/-- Fields of the sunrise-band hint (location.ts `getSunriseTimezoneHint`). -/
structure SunriseTimezoneHint where
  utcOffsetRange : String
  regionHint : String
  beijingTime : String
  beijingHour : Nat
  idealOffset : Int
  minOffset : Int
  maxOffset : Int
deriving Repr

/-- `normalizeOffset` of location.ts: fold a UTC offset into [-12, 14]. -/
def normalizeOffset (offset : Int) : Int :=
  if offset < -12 then offset + 24
  else if offset > 14 then offset - 24
  else offset

/-- `getRegionByOffset` of location.ts. -/
def getRegionByOffset (offset : Int) : String :=
  if 9 ≤ offset ∧ offset ≤ 12 then "东亚、澳大利亚东部、太平洋岛屿"
  else if 5 ≤ offset ∧ offset ≤ 8 then "南亚、东南亚、中亚"
  else if 2 ≤ offset ∧ offset ≤ 4 then "中东、东欧、东非"
  else if -1 ≤ offset ∧ offset ≤ 1 then "西欧、西非"
  else if -5 ≤ offset ∧ offset ≤ -2 then "南美洲东部、大西洋"
  else if -8 ≤ offset ∧ offset ≤ -6 then "北美洲西部、太平洋东部"
  else if -12 ≤ offset ∧ offset ≤ -9 then "太平洋中部、夏威夷、阿拉斯加"
  else "全球各地"

/-- `formatOffset` of location.ts. -/
def formatOffset (offset : Int) : String :=
  if 0 ≤ offset then "UTC+" ++ toString offset else "UTC" ++ toString offset

/-- `String(n).padStart(2, '0')` for the hour/minute display. -/
def pad2 (n : Nat) : String :=
  if n < 10 then "0" ++ toString n else toString n

/-- The Sunrise-Band Calculator (location.ts `getSunriseTimezoneHint`),
as a function of the current UTC+8 wall-clock hour and minute. -/
def getSunriseTimezoneHint (beijingHour beijingMinute : Nat) : SunriseTimezoneHint :=
  let targetLocalHour : Int := 6
  let idealOffset : Int := targetLocalHour - (beijingHour : Int) + 8
  let minOffset := normalizeOffset (idealOffset - 1)
  let maxOffset := normalizeOffset (idealOffset + 1)
  { utcOffsetRange := formatOffset minOffset ++ " 到 " ++ formatOffset maxOffset
    regionHint := getRegionByOffset idealOffset
    beijingTime := pad2 beijingHour ++ ":" ++ pad2 beijingMinute
    beijingHour := beijingHour
    idealOffset := idealOffset
    minOffset := minOffset
    maxOffset := maxOffset }

/-- Uniform pick from the static catalog
(location.ts `getRandomStaticLocation`), with the random draw supplied as an
index. -/
def getRandomStaticLocation (sidx : Nat) : Location :=
  LOCATIONS.get ⟨sidx % LOCATIONS.length, Nat.mod_lt _ (by decide)⟩

/-- Destination produced by the resolver, tagged by provenance (the static
catalog or a parsed LLM answer). -/
inductive ResolvedLoc where
  | fromCatalog (loc : Location)
  | fromLLM (loc : JLocation)
deriving Repr

def ResolvedLoc.isFromLLM : ResolvedLoc → Bool
  | .fromCatalog _ => false
  | .fromLLM _ => true

/-- External inputs of one `generateLocationWithLLM` call: the clock, the
random catalog index, the availability of the optional chatluna service, the
outcome of `createChatModel` (throw / model object absent / model present),
the outcome of `model.invoke` (throw / response content string), and the two
stock-photo searchers (which never throw, they return `null` on failure). -/
structure LlmOracle where
  now : Int
  sidx : Nat
  chatlunaAvailable : Bool
  createModel : Except Unit Bool
  invokeContent : Except Unit String
  pexels : String → Option String
  unsplash : String → Option String

/-- Strip characters outside the Latin ranges kept by the image-search query
cleaner (`[^\u0000-\u007FÀ-ɏḀ-ỿ]` replaced by a space),
then collapse whitespace runs and trim. -/
def cleanQueryChars (s : Chars) : Chars :=
  let replaced := s.map fun c =>
    if c.toNat ≤ 0x7f ∨ (0xc0 ≤ c.toNat ∧ c.toNat ≤ 0x24f) ∨
       (0x1e00 ≤ c.toNat ∧ c.toNat ≤ 0x1eff) then c else ' '
  let collapsed := replaced.foldr
    (fun c acc =>
      if isJsTrimWs c then
        match acc with
        | ' ' :: _ => acc
        | _ => ' ' :: acc
      else c :: acc) []
  trimChars collapsed

def cleanQuery (s : String) : String :=
  String.mk (cleanQueryChars s.data)

/-- `formatQuery` of location.ts: substitute the placeholders of the
user-supplied template, trim, then clean. -/
def formatQuery (tmpl : String) (loc : JLocation) : String :=
  let city := jsOrJ (some loc.city) (.str [])
  let raw := replaceFirstStr
    (replaceFirstStr
      (replaceFirstStr tmpl "\x7blandmark\x7d" (jsToString loc.landmark))
      "\x7bcountry\x7d" (jsToString loc.country))
    "\x7bcity\x7d" (jsToString city)
  cleanQuery (String.mk (trimChars raw.data))

/-- Ordered candidate search queries (location.ts lines 214-219); the
`filter(Boolean)` drops the absent city entry and empty strings.  Takes the
`imageSearchPrompt` configuration value. -/
def searchQueries (imageSearchPrompt : String) (loc : JLocation) : List String :=
  let template := jsOrStr imageSearchPrompt "\x7blandmark\x7d \x7bcountry\x7d landscape"
  ([some (formatQuery template loc),
    some (cleanQuery (jsToString loc.landmark ++ " " ++ jsToString loc.country)),
    if truthy loc.city then some (cleanQuery (jsToString loc.city ++ " " ++ jsToString loc.country)) else none,
    some (cleanQuery (jsToString loc.country))].filterMap id).filter (· ≠ "")

/-- The photo-search loop: per query, Pexels first, then Unsplash, stop at the
first hit.  Takes the two configured API keys (empty = absent). -/
def firstPhoto (pexelsApiKey unsplashAccessKey : String) (ora : LlmOracle) :
    List String → Option String
  | [] => none
  | q :: qs =>
    match (if pexelsApiKey ≠ "" then ora.pexels q else none) with
    | some u => some u
    | none =>
      match (if unsplashAccessKey ≠ "" then ora.unsplash q else none) with
      | some u => some u
      | none => firstPhoto pexelsApiKey unsplashAccessKey ora qs

/-- Photo-URL replacement applied to a successfully parsed location
(location.ts lines 198-245): only attempted when at least one API key is
configured; on no hit the LLM-suggested URL is kept. -/
def replacePhotoUrl (cfg : Config) (ora : LlmOracle) (loc : JLocation) : JLocation :=
  if cfg.unsplashAccessKey ≠ "" ∨ cfg.pexelsApiKey ≠ "" then
    match firstPhoto cfg.pexelsApiKey cfg.unsplashAccessKey ora
        (searchQueries cfg.imageSearchPrompt loc) with
    | some u => { loc with landscapeUrl := .str u.data }
    | none => loc
  else loc

/-- The Destination Resolver (location.ts `generateLocationWithLLM`) as a
state transformer on the process-wide `llmCooldownUntil` timestamp.  Prompt
assembly is not modelled: the prompt only feeds the external model, whose
answer is already an oracle input. -/
def generateLocationWithLLM (cfg : Config) (ora : LlmOracle) (cooldownUntil : Int) :
    ResolvedLoc × Int :=
  if ¬(cfg.llmLocationEnabled ∧ cfg.llmLocationModel ≠ "" ∧ ora.chatlunaAvailable) then
    (.fromCatalog (getRandomStaticLocation ora.sidx), cooldownUntil)
  else
    let cooldownMs := cfg.llmFailureCooldownMs.getD 0
    if 0 < cooldownMs ∧ ora.now < cooldownUntil then
      (.fromCatalog (getRandomStaticLocation ora.sidx), cooldownUntil)
    else
      let failState : Int := if 0 < cooldownMs then ora.now + cooldownMs else cooldownUntil
      match ora.createModel with
      | .error _ => (.fromCatalog (getRandomStaticLocation ora.sidx), failState)
      | .ok false => (.fromCatalog (getRandomStaticLocation ora.sidx), failState)
      | .ok true =>
        match ora.invokeContent with
        | .error _ => (.fromCatalog (getRandomStaticLocation ora.sidx), failState)
        | .ok content =>
          match parseLocation content.data with
          | none => (.fromCatalog (getRandomStaticLocation ora.sidx), cooldownUntil)
          | some loc => (.fromLLM (replacePhotoUrl cfg ora loc), 0)

/-- The gating condition under which the resolver attempts dynamic
generation (location.ts lines 132-141). -/
def llmAttempted (cfg : Config) (ora : LlmOracle) (cooldownUntil : Int) : Bool :=
  cfg.llmLocationEnabled && cfg.llmLocationModel ≠ "" && ora.chatlunaAvailable &&
    !(0 < cfg.llmFailureCooldownMs.getD 0 && ora.now < cooldownUntil)

/-- Coerce the resolver output to the string-typed `Location` record used by
the orchestrator and the database row (string contexts in JavaScript coerce
the raw parsed values via `ToString`). -/
def toLocation : ResolvedLoc → Location
  | .fromCatalog l => l
  | .fromLLM j =>
    { country := jsToString j.country
      countryZh := jsToString j.countryZh
      city := jsToString j.city
      landmark := jsToString j.landmark
      landmarkZh := jsToString j.landmarkZh
      timezone := jsToString j.timezone
      landscapeUrl := jsToString j.landscapeUrl }

/-- Outcome of the optional AI image generation (travel.ts lines 45-74):
`threw` and `failed` reset the AIGC flag; a success whose first output has a
falsy `url` keeps the flag but yields no background. -/
inductive AigcRes where
  | threw
  | failed
  | okNoUrl
  | ok (url : String)
deriving Repr

/-- External inputs of one `triggerTravelSequence` call. -/
structure TravelOracle where
  llm : LlmOracle
  mediaLunaAvailable : Bool
  storageAvailable : Bool
  aigc : String → AigcRes
  cardRender : String → Except Unit Nat
  storageUpload : Nat → Except Unit String
  timestamp : Int

structure UserInfo where
  userId : String
  username : String
  avatarUrl : String
deriving Repr, DecidableEq

/-- Result record of `triggerTravelSequence` (travel.ts `TravelResult`); the
rendered PNG buffer is abstracted to an opaque tag. -/
structure TravelResult where
  location : Location
  imageBuffer : Option Nat
  imageUrl : Option String
  isAIGC : Bool
  msg : String

/-- Row of the `pig_travel_log` table (database.ts `PigTravelLog`). -/
structure PigTravelRow where
  userId : String
  platform : String
  guildId : String
  timestamp : Int
  country : String
  countryZh : String
  location : String
  locationZh : String
  timezone : String
  imagePath : String
  isAIGC : Bool
deriving Repr, DecidableEq

/-- Model of `ctx.database.create('pig_travel_log', row)`. -/
def dbCreate (db : List PigTravelRow) (row : PigTravelRow) : List PigTravelRow :=
  db ++ [row]

/-- Image-handling phase of the orchestrator (travel.ts lines 41-110),
entered only in image output mode: optional AIGC background, card rendering
with every failure caught, optional storage upload with failure caught.
Returns (imageBuffer, imageUrl, isAIGC). -/
def travelImagePhase (cfg : Config) (ora : TravelOracle) (location : Location) :
    Option Nat × Option String × Bool :=
  let aigcOutcome : Option String × Bool :=
    if cfg.aigcEnabled ∧ cfg.aigcChannel ≠ "" ∧ ora.mediaLunaAvailable then
      let prompt := replaceFirstStr
        (replaceFirstStr cfg.aigcPrompt "\x7blandmark\x7d" location.landmark)
        "\x7bcountry\x7d" location.country
      match ora.aigc prompt with
      | .ok url => (some url, true)
      | .okNoUrl => (none, true)
      | .failed => (none, false)
      | .threw => (none, false)
    else (none, false)
  let backgroundUrl := aigcOutcome.1.getD location.landscapeUrl
  let isAIGC := aigcOutcome.2
  match ora.cardRender backgroundUrl with
  | .error _ => (none, none, isAIGC)
  | .ok buf =>
    let imageUrl :=
      if cfg.useStorageService ∧ ora.storageAvailable then
        match ora.storageUpload buf with
        | .ok url => some url
        | .error _ => none
      else none
    (some buf, imageUrl, isAIGC)

/-- Destination resolution step of the orchestrator (travel.ts lines 24-29):
LLM generation only when the flag is set and the chatluna service exists. -/
def resolveTravelLocation (cfg : Config) (ora : LlmOracle) (cooldownUntil : Int) :
    ResolvedLoc × Int :=
  if cfg.llmLocationEnabled ∧ ora.chatlunaAvailable then
    generateLocationWithLLM cfg ora cooldownUntil
  else
    (.fromCatalog (getRandomStaticLocation ora.sidx), cooldownUntil)

/-- User-facing message from the configurable template (travel.ts lines
36-38). -/
def travelMsg (cfg : Config) (location : Location) : String :=
  replaceFirstStr
    (replaceFirstStr cfg.travelMessageTemplate
      "\x7blandmark\x7d" (jsOrStr location.landmarkZh location.landmark))
    "\x7bcountry\x7d" (jsOrStr location.countryZh location.country)

/-- Travel-log row written at the end of `triggerTravelSequence` (travel.ts
lines 113-126). -/
def travelRow (user : UserInfo) (platform guildId : String) (timestamp : Int)
    (location : Location) (imageUrl : Option String) (isAIGC : Bool) : PigTravelRow :=
  { userId := user.userId
    platform := platform
    guildId := guildId
    timestamp := timestamp
    country := location.country
    countryZh := jsOrStr location.countryZh location.country
    location := location.landmark
    locationZh := jsOrStr location.landmarkZh location.landmark
    timezone := jsOrStr location.timezone "UTC"
    imagePath := imageUrl.getD ""
    isAIGC := isAIGC }

/-- The Travel Orchestrator (travel.ts `triggerTravelSequence`): resolve a
destination, format the message, handle the image in image mode with all
failures absorbed, then unconditionally insert one travel-log row. -/
def triggerTravelSequence (cfg : Config) (user : UserInfo) (platform guildId : String)
    (ora : TravelOracle) (cooldownUntil : Int) (db : List PigTravelRow) :
    TravelResult × Int × List PigTravelRow :=
  let resolved := resolveTravelLocation cfg ora.llm cooldownUntil
  let location := toLocation resolved.1
  let img : Option Nat × Option String × Bool :=
    if cfg.outputMode = .image then travelImagePhase cfg ora location
    else (none, none, false)
  ({ location := location
     imageBuffer := img.1
     imageUrl := img.2.1
     isAIGC := img.2.2
     msg := travelMsg cfg location },
   resolved.2,
   dbCreate db (travelRow user platform guildId ora.timestamp location img.2.1 img.2.2))

/-- URL requested by sunrise.ts `getSunriseInfo`: the API base is a string
literal in the code, independent of any configuration. -/
def sunriseRequestUrl (lat lng : Int) (date : String) : String :=
  "https://api.sunrise-sunset.org/json?lat=" ++ toString lat ++
    "&lng=" ++ toString lng ++ "&formatted=0&date=" ++ date

/-- Travel-log fields consumed by the leaderboard aggregation. -/
structure LogRow where
  userId : String
  country : String
  countryZh : String
deriving Repr, DecidableEq

/-- Canonical country key of one log row (leaderboard.ts line 378):
`getCountryISOCode(log.country) || getCountryISOCode(log.countryZh) ||
log.country`.  The ISO lookup table lives in `utils/countryMapping.ts`
(absent from `src/`), so it is passed in as a parameter. -/
def countryKeyOf (iso : String → Option String) (log : LogRow) : String :=
  match iso log.country with
  | some k => k
  | none =>
    match iso log.countryZh with
    | some k => k
    | none => log.country

/-- Per-user accumulator of the leaderboard pass: trip count plus the
insertion-ordered set of country keys (a JavaScript `Set`). -/
structure UserStat where
  userId : String
  tripCount : Nat
  countries : List String
deriving Repr, DecidableEq

/-- `Set.prototype.add`. -/
def addCountry (cs : List String) (k : String) : List String :=
  if k ∈ cs then cs else cs ++ [k]

/-- Fold step of the per-user statistics map (`userStats` in
`getPigLeaderboard`): JavaScript `Map` iteration preserves insertion order,
so the map is an insertion-ordered association list with unique keys, and
`Map.get` followed by in-place mutation is an in-place update of the unique
matching entry (appended at the end when absent, as `Map.set` does). -/
def addLog (iso : String → Option String) (acc : List UserStat) (log : LogRow) :
    List UserStat :=
  match acc with
  | [] => [⟨log.userId, 1, [countryKeyOf iso log]⟩]
  | st :: rest =>
    if st.userId = log.userId then
      { st with
        tripCount := st.tripCount + 1
        countries := addCountry st.countries (countryKeyOf iso log) } :: rest
    else st :: addLog iso rest log

def buildStats (iso : String → Option String) (logs : List LogRow) : List UserStat :=
  logs.foldl (addLog iso) []

/-- Leaderboard entry (leaderboard.ts `PigLeaderboardEntry`, the fields the
ranking logic computes; display-only fields are filled in later by the
caller). -/
structure PigEntry where
  userId : String
  tripCount : Nat
  countryCount : Nat
  score : Nat
deriving Repr, DecidableEq

def entriesOfStats (stats : List UserStat) : List PigEntry :=
  stats.map fun st =>
    { userId := st.userId
      tripCount := st.tripCount
      countryCount := st.countries.length
      score := st.tripCount + st.countries.length * 2 }

/-- Stable descending sort by score.  `Array.prototype.sort` with comparator
`(a, b) => b.score - a.score` is stable (ECMAScript 2019), and a stable sort
for a total preorder is unique, so any stable implementation models it. -/
def insertDescEntry (e : PigEntry) : List PigEntry → List PigEntry
  | [] => [e]
  | x :: xs => if x.score ≤ e.score then e :: x :: xs else x :: insertDescEntry e xs

def sortDescEntries : List PigEntry → List PigEntry
  | [] => []
  | x :: xs => insertDescEntry x (sortDescEntries xs)

/-- The leaderboard aggregation (leaderboard.ts `getPigLeaderboard`) over the
travel-log rows of one guild: per-user trip and distinct-country counts,
score `trips + 2 * countries`, stable descending sort, top `limit`. -/
def getPigLeaderboard (iso : String → Option String) (logs : List LogRow)
    (limit : Nat) : List PigEntry :=
  (sortDescEntries (entriesOfStats (buildStats iso logs))).take limit

/-- ASCII-lowered character comparison underlying the `i` regex flag. -/
def lowerChars (s : Chars) : Chars := s.map Char.toLower

/-- Case-insensitive equality of attribute values (the `gi` regex flags of
the world-map patterns). -/
def eqCI (a b : String) : Bool := lowerChars a.data = lowerChars b.data

/-- Contiguous-substring test on character lists. -/
def isSubList (pat s : Chars) : Bool := (findSub pat s).isSome

/-- Case-sensitive substring test (`String.prototype.includes`). -/
def containsSub (s pat : String) : Bool := isSubList pat.data s.data

/-- JavaScript `toUpperCase` (ASCII suffices for ISO codes). -/
def upperStr (s : String) : String := String.mk (s.data.map Char.toUpper)

/-- One visited country as consumed by the patcher (worldmap.ts
`VisitedCountry`, restricted to the fields the patcher reads). -/
structure VisitedCountry where
  isoCode : String
  countryName : String
  visitCount : Nat
deriving Repr, DecidableEq

/-- Visit-intensity tier (worldmap.ts `getVisitClass`). -/
def getVisitClass (count : Nat) : String :=
  if count ≥ 5 then "visited-4"
  else if count ≥ 3 then "visited-3"
  else if count ≥ 1 then "visited-2"
  else ""

/-- One SVG element, reduced to the three attributes the patcher's regexes
inspect (`id`, `name`, `class`); all other markup is carried through the
string rewrites untouched.  The regex passes of `processMapSvg` act
per element, which this structured embedding makes explicit. -/
structure SvgElement where
  idAttr : Option String
  nameAttr : Option String
  classAttr : Option String
deriving Repr, DecidableEq

/-- `addClassToElement` of worldmap.ts: merge into an existing `class`
attribute unless it already contains `visited`, else append a fresh `class`
attribute. -/
def addClassToElement (e : SvgElement) (className : String) : SvgElement :=
  match e.classAttr with
  | some cls =>
    if containsSub cls "visited" then e
    else { e with classAttr := some (String.mk (trimChars (cls ++ " " ++ className).data)) }
  | none => { e with classAttr := some className }

/-- The three regex passes of `processMapSvg` for one country applied to one
element: match by `id` (ISO code, case-insensitive), by `name` (English name,
case-insensitive), then by exact `class` value (English name,
case-insensitive; merged unconditionally). -/
def applyCountry (e : SvgElement) (c : VisitedCountry) : SvgElement :=
  let isoCode := upperStr c.isoCode
  let englishName := c.countryName
  let visitClass := "visited " ++ getVisitClass c.visitCount
  let e1 :=
    match e.idAttr with
    | some i => if eqCI i isoCode then addClassToElement e visitClass else e
    | none => e
  let e2 :=
    if englishName ≠ "" then
      match e1.nameAttr with
      | some n => if eqCI n englishName then addClassToElement e1 visitClass else e1
      | none => e1
    else e1
  if englishName ≠ "" then
    match e2.classAttr with
    | some cls =>
      if eqCI cls englishName then
        { e2 with classAttr := some (String.mk (trimChars (cls ++ " " ++ visitClass).data)) }
      else e2
    | none => e2
  else e2

/-- The World-Map SVG Patcher (worldmap.ts `processMapSvg`): for each visited
country in order, run the three attribute-rewriting passes over the whole
document. -/
def processMapSvg (svg : List SvgElement) (visited : List VisitedCountry) :
    List SvgElement :=
  visited.foldl (fun doc c => doc.map (fun e => applyCountry e c)) svg

/-- Does one of the three patterns of `c` match the element (on its current
attributes)? -/
def matchesCountry (e : SvgElement) (c : VisitedCountry) : Bool :=
  (match e.idAttr with
   | some i => eqCI i (upperStr c.isoCode)
   | none => false) ||
  (c.countryName ≠ "" &&
   (match e.nameAttr with
    | some n => eqCI n c.countryName
    | none => false)) ||
  (c.countryName ≠ "" &&
   (match e.classAttr with
    | some cls => eqCI cls c.countryName
    | none => false))

/-- Calendar day in the local timezone, as read off a `Date` by
`getFullYear`/`getMonth`/`getDate` (always canonical, so two equal triples
denote the same midnight timestamp and the `getTime()` comparison of the
middleware is triple equality). -/
structure CalDay where
  year : Int
  month : Int
  day : Int
deriving Repr, DecidableEq

/-- Local wall-clock instant consumed by the statistics middleware. -/
structure LocalNow where
  day : CalDay
  hour : Int
deriving Repr, DecidableEq

/-- Stored `pig_user_state` fields read by the statistics middleware.  Each
counter is optional, matching the `?? 0` reads on a fresh or partial row; the
hourly JSON string is modelled as its parsed finite map, with `none` standing
for an absent or unparseable value (the `try`/`catch` turns both into an
empty object). -/
structure UserStateRow where
  nightOwlCount : Option Int
  lastNightOwlDate : Option CalDay
  totalMessageCount : Option Int
  nightMessageCount : Option Int
  hourlyMessageCounts : Option (List (String × Int))
deriving Repr, DecidableEq

/-- `hourlyCounts[hourKey] = (hourlyCounts[hourKey] || 0) + 1` on a
JavaScript object (modelled as an association list with unique keys, as
`JSON.parse` produces): update the property in place, or append the new
key. -/
def bumpHour : List (String × Int) → String → List (String × Int)
  | [], key => [(key, 1)]
  | p :: rest, key =>
    if p.1 = key then (p.1, (if p.2 = 0 then 0 else p.2) + 1) :: rest
    else p :: bumpHour rest key

/-- Night-owl window test (types.ts lines 980-985): a half-open hour window,
wrapping past midnight when `startHour > endHour`. -/
def isNightOwlTime (startHour endHour h : Int) : Bool :=
  if startHour ≤ endHour then startHour ≤ h && h < endHour
  else startHour ≤ h || h < endHour

/-- Fields written by the statistics middleware's single upsert. -/
structure MwUpdate where
  totalMessageCount : Int
  nightMessageCount : Int
  hourlyMessageCounts : List (String × Int)
  nightOwl : Option (Int × CalDay)
deriving Repr, DecidableEq

/-- Body of the message-statistics / night-owl middleware (types.ts lines
953-1019), after the guard: bump the total, night and hourly counters, and
bump the night-owl counter only when the night-owl feature is on, the hour is
inside the window, and the stored `lastNightOwlDate` is not today. -/
def messageStatsUpdate (cfg : Config) (st : Option UserStateRow) (now : LocalNow) :
    MwUpdate :=
  let hourly :=
    match st with
    | some row => row.hourlyMessageCounts.getD []
    | none => []
  let hourKey := toString now.hour
  let startHour := cfg.nightOwlStartHour.getD 0
  let endHour := cfg.nightOwlEndHour.getD 5
  let night := isNightOwlTime startHour endHour now.hour
  let owlBump :=
    if cfg.nightOwlEnabled ∧ night then
      let alreadyRecordedToday : Bool :=
        match st with
        | some row =>
          match row.lastNightOwlDate with
          | some d => decide (d = now.day)
          | none => false
        | none => false
      if alreadyRecordedToday then none
      else some (((st.bind (·.nightOwlCount)).getD 0) + 1, now.day)
    else none
  { totalMessageCount := ((st.bind (·.totalMessageCount)).getD 0) + 1
    nightMessageCount := ((st.bind (·.nightMessageCount)).getD 0) + (if night then 1 else 0)
    hourlyMessageCounts := bumpHour hourly hourKey
    nightOwl := owlBump }

/-- The middleware including its entry guard (types.ts lines 950-952): no
update is written for a message with no sender id or no content/elements. -/
def messageStatsMiddleware (cfg : Config) (userIdPresent hasContent hasElements : Bool)
    (st : Option UserStateRow) (now : LocalNow) : Option MwUpdate :=
  if ¬userIdPresent ∨ (¬hasContent ∧ ¬hasElements) then none
  else some (messageStatsUpdate cfg st now)

/-- Effect of the middleware's upsert on the stored row: provided fields are
overwritten, absent ones (the night-owl pair when no bump happened) keep
their stored values. -/
def applyMwUpdate (st : Option UserStateRow) (u : MwUpdate) : UserStateRow :=
  { nightOwlCount :=
      match u.nightOwl with
      | some (n, _) => some n
      | none => st.bind (·.nightOwlCount)
    lastNightOwlDate :=
      match u.nightOwl with
      | some (_, d) => some d
      | none => st.bind (·.lastNightOwlDate)
    totalMessageCount := some u.totalMessageCount
    nightMessageCount := some u.nightMessageCount
    hourlyMessageCounts := some u.hourlyMessageCounts }

theorem getRandomStaticLocation_mem (i : Nat) : getRandomStaticLocation i ∈ LOCATIONS :=
  List.get_mem _ _ _

/-- Fixture configuration for concrete evaluations: LLM generation enabled
with a 1000 ms failure cooldown, no photo API keys. -/
def demoCfg : Config :=
  { sunriseApi := none, defaultLat := 30, defaultLng := 120, abnormalThreshold := 3,
    outputMode := .image, useStorageService := true, storageCacheHours := 24,
    travelMessageTemplate := "去了 \x7blandmark\x7d，\x7bcountry\x7d！",
    aigcEnabled := false, aigcChannel := "", aigcPrompt := "", logPath := none,
    backgroundStoragePath := "./data/pig/backgrounds",
    llmLocationEnabled := true, llmLocationModel := "gemini-flash",
    llmLocationCustomContext := "", llmFailureCooldownMs := some 1000,
    imageSearchPrompt := "", unsplashAccessKey := "", pexelsApiKey := "",
    backgroundFetchMode := .auto, backgroundFetchTimeoutMs := 8000,
    backgroundInlineMaxBytes := 8388608, worldMapUseTianditu := false,
    tiandituToken := "", tiandituTimeoutMs := 5000, worldMapOfficialOnly := false,
    logRetentionDays := 45, monthlySummaryEnabled := false, monthlySummaryScope := .global,
    experimentalAutoDetect := false, experimentalAutoDetectScope := .guild,
    silentRecordEnabled := true, silentRecordAutoTravel := false,
    nightOwlEnabled := true, nightOwlStartHour := some 0, nightOwlEndHour := some 5,
    nightOwlGrayscaleAvatar := false, debug := false }

/-- Fixture oracle: the model is created, its answer is not JSON at all, and
both photo searches find nothing. -/
def demoOra : LlmOracle :=
  { now := 5000, sidx := 0, chatlunaAvailable := true,
    createModel := .ok true, invokeContent := .ok "not json",
    pexels := fun _ => none, unsplash := fun _ => none }

/-- Fixture LLM answer: malformed as a whole (prose around a fenced JSON
block) but recoverable by the fenced-block extraction stage. -/
def demoFenced : String :=
  "oops ```json\n\x7b\"country\":\"France\",\"landmark\":\"Eiffel Tower\",\"landscapeUrl\":\"http://a\"\x7d\n``` tail"

/-- Location parsed out of `demoFenced` (localized names default to the
canonical ones, timezone defaults to UTC). -/
def demoFencedLoc : JLocation :=
  { country := .str "France".data
    countryZh := .str "France".data
    city := .str []
    landmark := .str "Eiffel Tower".data
    landmarkZh := .str "Eiffel Tower".data
    timezone := .str "UTC".data
    landscapeUrl := .str "http://a".data }

/-- C5: for every anchor-zone hour 0..23 (and any minute), the Sunrise-Band
Calculator returns `idealOffset = 6 − hour + 8` normalized into [−12, 14]
(the normalization is the identity there), bounds `idealOffset ∓ 1` each
individually normalized into [−12, 14], and the emitted interval is 2-wide
modulo 24 and centred (mod 24) on the ideal offset. -/
theorem sunrise_band_normalized (h m : Nat) (hh : h < 24) :
    (getSunriseTimezoneHint h m).idealOffset = normalizeOffset (6 - (h : Int) + 8) ∧
    -12 ≤ (getSunriseTimezoneHint h m).idealOffset ∧
    (getSunriseTimezoneHint h m).idealOffset ≤ 14 ∧
    (getSunriseTimezoneHint h m).minOffset
      = normalizeOffset ((getSunriseTimezoneHint h m).idealOffset - 1) ∧
    (getSunriseTimezoneHint h m).maxOffset
      = normalizeOffset ((getSunriseTimezoneHint h m).idealOffset + 1) ∧
    -12 ≤ (getSunriseTimezoneHint h m).minOffset ∧
    (getSunriseTimezoneHint h m).minOffset ≤ 14 ∧
    -12 ≤ (getSunriseTimezoneHint h m).maxOffset ∧
    (getSunriseTimezoneHint h m).maxOffset ≤ 14 ∧
    ((getSunriseTimezoneHint h m).maxOffset - (getSunriseTimezoneHint h m).minOffset) % 24 = 2 ∧
    ((getSunriseTimezoneHint h m).minOffset - ((getSunriseTimezoneHint h m).idealOffset - 1)) % 24 = 0 ∧
    ((getSunriseTimezoneHint h m).maxOffset - ((getSunriseTimezoneHint h m).idealOffset + 1)) % 24 = 0 := by
  simp only [getSunriseTimezoneHint, normalizeOffset]
  interval_cases h <;> norm_num

/-- Witness for C5 at hour 7, minute 30. -/
theorem sunrise_band_normalized_witness :
    (7 < 24) ∧ (getSunriseTimezoneHint 7 30).idealOffset = normalizeOffset (6 - (7 : Int) + 8) :=
  ⟨by norm_num, (sunrise_band_normalized 7 30 (by norm_num)).1⟩

/-- C1: every `triggerTravelSequence` invocation appends exactly one row to
the travel-log table, for every outcome of AI image generation, card
rendering and storage upload (all quantified in the oracle), and the row's
`imagePath` is the empty string whenever no durable URL was produced. -/
theorem travel_inserts_exactly_one_row (cfg : Config) (user : UserInfo)
    (platform guildId : String) (ora : TravelOracle) (cooldownUntil : Int)
    (db : List PigTravelRow) :
    (∃ row : PigTravelRow,
      (triggerTravelSequence cfg user platform guildId ora cooldownUntil db).2.2 = db ++ [row] ∧
      ((triggerTravelSequence cfg user platform guildId ora cooldownUntil db).1.imageUrl = none →
        row.imagePath = "")) ∧
    (triggerTravelSequence cfg user platform guildId ora cooldownUntil db).2.2.length
      = db.length + 1 := by
  refine ⟨⟨_, rfl, fun h => ?_⟩, ?_⟩
  · show (triggerTravelSequence cfg user platform guildId ora cooldownUntil db).1.imageUrl.getD "" = ""
    rw [h]
    rfl
  · show (dbCreate db _).length = db.length + 1
    simp [dbCreate]

theorem setDeprecated_generateLocation (c : Config) (s l : Option String)
    (ora : LlmOracle) (cu : Int) :
    generateLocationWithLLM (setDeprecated c s l) ora cu = generateLocationWithLLM c ora cu := by
  cases c
  rfl

theorem setDeprecated_trigger (c : Config) (s l : Option String) (user : UserInfo)
    (pf gid : String) (tora : TravelOracle) (cu : Int) (db : List PigTravelRow) :
    triggerTravelSequence (setDeprecated c s l) user pf gid tora cu db
      = triggerTravelSequence c user pf gid tora cu db := by
  cases c
  rfl

theorem setDeprecated_middleware (c : Config) (s l : Option String) (uip hc he : Bool)
    (st : Option UserStateRow) (now : LocalNow) :
    messageStatsMiddleware (setDeprecated c s l) uip hc he st now
      = messageStatsMiddleware c uip hc he st now := by
  cases c
  rfl

/-- C9: configurations differing only in the two deprecated fields
(`sunriseApi`, `logPath`) drive identical behavior in every modelled
operation that reads the configuration (destination resolution, the travel
orchestrator, the statistics middleware); functions that take no
configuration are unaffected trivially, and the sunrise lookup's request URL
is built on a fixed API base independent of `sunriseApi`. -/
theorem deprecated_config_fields_inert (c : Config) (s l : Option String)
    (ora : LlmOracle) (cu : Int) (user : UserInfo) (pf gid : String)
    (tora : TravelOracle) (db : List PigTravelRow) (uip hc he : Bool)
    (st : Option UserStateRow) (now : LocalNow) (lat lng : Int) (date : String) :
    generateLocationWithLLM (setDeprecated c s l) ora cu = generateLocationWithLLM c ora cu ∧
    triggerTravelSequence (setDeprecated c s l) user pf gid tora cu db
      = triggerTravelSequence c user pf gid tora cu db ∧
    messageStatsMiddleware (setDeprecated c s l) uip hc he st now
      = messageStatsMiddleware c uip hc he st now ∧
    "https://api.sunrise-sunset.org/json".data <+: (sunriseRequestUrl lat lng date).data := by
  refine ⟨setDeprecated_generateLocation c s l ora cu,
    setDeprecated_trigger c s l user pf gid tora cu db,
    setDeprecated_middleware c s l uip hc he st now, ?_⟩
  show "https://api.sunrise-sunset.org/json".data <+:
      ("https://api.sunrise-sunset.org/json?lat=" ++ toString lat ++ "&lng=" ++ toString lng
        ++ "&formatted=0&date=" ++ date).data
  have h1 : "https://api.sunrise-sunset.org/json".data <+:
      "https://api.sunrise-sunset.org/json?lat=".data := by decide
  calc "https://api.sunrise-sunset.org/json".data
      <+: "https://api.sunrise-sunset.org/json?lat=".data := h1
    _ <+: ("https://api.sunrise-sunset.org/json?lat=" ++ toString lat ++ "&lng=" ++ toString lng
      ++ "&formatted=0&date=" ++ date).data := by
        simp [String.data_append]

/-- C3 (amended): thrown exceptions of dynamic generation — model creation
throwing, the model object being absent, the LLM invocation throwing — set
the cooldown to `now + cooldownMs` (when configured positive) and fall back
to the catalog; the non-throwing failed-parse branch falls back to the
catalog but leaves the cooldown unchanged. -/
theorem llm_failure_cooldown (cfg : Config) (ora : LlmOracle) (cu N : Int)
    (hN : cfg.llmFailureCooldownMs = some N) (hpos : 0 < N)
    (hen : cfg.llmLocationEnabled = true) (hmodel : cfg.llmLocationModel ≠ "")
    (hchat : ora.chatlunaAvailable = true) (hnotcool : ¬(ora.now < cu)) :
    (ora.createModel = .error () ∨ ora.createModel = .ok false →
      generateLocationWithLLM cfg ora cu
        = (.fromCatalog (getRandomStaticLocation ora.sidx), ora.now + N)) ∧
    (∀ e : Unit, ora.createModel = .ok true → ora.invokeContent = .error e →
      generateLocationWithLLM cfg ora cu
        = (.fromCatalog (getRandomStaticLocation ora.sidx), ora.now + N)) ∧
    (∀ content : String, ora.createModel = .ok true → ora.invokeContent = .ok content →
      parseLocation content.data = none →
      generateLocationWithLLM cfg ora cu
        = (.fromCatalog (getRandomStaticLocation ora.sidx), cu)) ∧
    getRandomStaticLocation ora.sidx ∈ LOCATIONS := by
  refine ⟨?_, ?_, ?_, getRandomStaticLocation_mem _⟩
  · rintro (h | h) <;>
      simp [generateLocationWithLLM, hN, hpos, hen, hmodel, hchat, hnotcool, h]
  · rintro ⟨⟩ h1 h2
    simp [generateLocationWithLLM, hN, hpos, hen, hmodel, hchat, hnotcool, h1, h2]
  · intro content h1 h2 h3
    simp [generateLocationWithLLM, hN, hpos, hen, hmodel, hchat, hnotcool, h1, h2, h3]

/-- Counterexample to C3 as stated: a failed parse (the model answered
`"not json"`) falls back to the catalog but does NOT start the cooldown
window — the cooldown timestamp stays 0 instead of becoming `now + 1000`. -/
theorem llm_parse_failure_keeps_cooldown_cx :
    llmAttempted demoCfg demoOra 0 = true ∧
    demoCfg.llmFailureCooldownMs = some 1000 ∧
    demoOra.invokeContent = .ok "not json" ∧
    parseLocation "not json".data = none ∧
    (generateLocationWithLLM demoCfg demoOra 0).2 = 0 ∧
    (generateLocationWithLLM demoCfg demoOra 0).2 ≠ demoOra.now + 1000 := by
  refine ⟨by decide, rfl, rfl, by rfl, ?_, ?_⟩
  · rfl
  · decide

/-- Witness for C3 (amended) at a concrete throwing invocation. -/
theorem llm_failure_cooldown_witness :
    generateLocationWithLLM demoCfg { demoOra with invokeContent := .error () } 0
      = (.fromCatalog (getRandomStaticLocation 0), 5000 + 1000) := by
  have h := llm_failure_cooldown demoCfg { demoOra with invokeContent := .error () } 0 1000
    rfl (by decide) rfl (by decide) rfl (by decide)
  exact h.2.1 () rfl rfl

/-- C4: cooldown gating of the Destination Resolver.  While `now <
cooldownUntil` (with a positive configured duration) the resolver skips
dynamic generation and returns a catalog entry; once `now` exceeds the
failure time plus the duration, generation is attempted again (given the
feature gates); a successful parse resets the cooldown timestamp to 0. -/
theorem llm_cooldown_gating (cfg : Config) (ora : LlmOracle) (cu T N : Int) :
    (cfg.llmFailureCooldownMs = some N → 0 < N → ora.now < cu →
      generateLocationWithLLM cfg ora cu
        = (.fromCatalog (getRandomStaticLocation ora.sidx), cu) ∧
      getRandomStaticLocation ora.sidx ∈ LOCATIONS ∧
      llmAttempted cfg ora cu = false) ∧
    (cfg.llmFailureCooldownMs = some N → 0 < N → cu = T + N → T + N < ora.now →
      cfg.llmLocationEnabled = true → cfg.llmLocationModel ≠ "" →
      ora.chatlunaAvailable = true → llmAttempted cfg ora cu = true) ∧
    (∀ (content : String) (loc : JLocation),
      ora.createModel = .ok true → ora.invokeContent = .ok content →
      parseLocation content.data = some loc →
      llmAttempted cfg ora cu = true →
      (generateLocationWithLLM cfg ora cu).2 = 0) := by
  refine ⟨?_, ?_, ?_⟩
  · intro hN hpos hlt
    refine ⟨?_, getRandomStaticLocation_mem _, ?_⟩
    · by_cases hg : cfg.llmLocationEnabled ∧ cfg.llmLocationModel ≠ "" ∧ ora.chatlunaAvailable
      · simp [generateLocationWithLLM, hg, hN, hpos, hlt]
      · simp [generateLocationWithLLM, hg]
    · simp only [llmAttempted, hN, Option.getD_some]
      by_cases h1 : cfg.llmLocationEnabled <;>
        by_cases h2 : cfg.llmLocationModel = "" <;>
          simp [h1, h2, hpos, hlt]
  · intro hN hpos hcu hgt hen hmodel hchat
    subst hcu
    simp only [llmAttempted, hN, Option.getD_some]
    simp [hen, hmodel, hchat]
    omega
  · intro content loc h1 h2 h3 hatt
    simp only [llmAttempted] at hatt
    obtain ⟨⟨⟨hen, hmodel⟩, hchat⟩, hcool⟩ := by
      simpa [Bool.and_eq_true] using hatt
    simp only [generateLocationWithLLM]
    rw [if_neg, if_neg]
    · simp [h1, h2, h3]
    · rintro ⟨hp, hlt⟩
      rcases hcool with h | h
      · omega
      · omega
    · intro h
      exact h ⟨hen, hmodel, hchat⟩

/-- Witness for C4: skip inside the window, attempt after it, and clear on a
successful parse, at concrete inputs. -/
theorem llm_cooldown_gating_witness :
    (generateLocationWithLLM demoCfg demoOra 6000
        = (.fromCatalog (getRandomStaticLocation demoOra.sidx), 6000) ∧
      getRandomStaticLocation demoOra.sidx ∈ LOCATIONS ∧
      llmAttempted demoCfg demoOra 6000 = false) ∧
    llmAttempted demoCfg { demoOra with now := 5500 } 5000 = true ∧
    (generateLocationWithLLM demoCfg { demoOra with invokeContent := .ok demoFenced } 0).2 = 0 :=
  ⟨(llm_cooldown_gating demoCfg demoOra 6000 0 1000).1 rfl (by decide) (by decide),
   (llm_cooldown_gating demoCfg { demoOra with now := 5500 } 5000 4000 1000).2.1
     rfl (by decide) (by decide) (by decide) rfl (by decide) rfl,
   (llm_cooldown_gating demoCfg { demoOra with invokeContent := .ok demoFenced } 0 0 1000).2.2
     demoFenced demoFencedLoc rfl rfl (by rfl) (by decide)⟩

theorem parseLocationResponse_retNull (fuel : Nat) (content : Chars)
    (h : tryParseValidate ((fencedExtract content).getD content) = .retNull) :
    parseLocationResponse (fuel + 1) content = none := by
  simp [parseLocationResponse, h]

theorem parseLocationResponse_threw_no_loose (fuel : Nat) (content : Chars)
    (h : tryParseValidate ((fencedExtract content).getD content) = .threw)
    (hl : looseExtract content = none) :
    parseLocationResponse (fuel + 1) content = none := by
  simp [parseLocationResponse, h, hl]

theorem tryParseValidate_retNull_of_missing (s : Chars) (d : Json)
    (hp : jsonParse (trimChars s) = some d) (hd : d ≠ .null)
    (hm : truthyOpt (jsonGetField d "country".data) = false ∨
      truthyOpt (jsonGetField d "landmark".data) = false ∨
      truthyOpt (jsonGetField d "landscapeUrl".data) = false) :
    tryParseValidate s = .retNull := by
  cases d with
  | null => exact absurd rfl hd
  | bool b => rcases hm with h | h | h <;> simp [tryParseValidate, validateLocationData, hp, h]
  | num m e => rcases hm with h | h | h <;> simp [tryParseValidate, validateLocationData, hp, h]
  | str cs => rcases hm with h | h | h <;> simp [tryParseValidate, validateLocationData, hp, h]
  | arr xs => rcases hm with h | h | h <;> simp [tryParseValidate, validateLocationData, hp, h]
  | obj fs => rcases hm with h | h | h <;> simp [tryParseValidate, validateLocationData, hp, h]

theorem resolver_static_of_parse_none (cfg : Config) (ora : LlmOracle) (cu : Int)
    (content : String) (h1 : ora.invokeContent = .ok content)
    (h2 : parseLocation content.data = none) :
    ∃ loc : Location, (generateLocationWithLLM cfg ora cu).1 = .fromCatalog loc ∧
      loc ∈ LOCATIONS := by
  refine ⟨getRandomStaticLocation ora.sidx, ?_, getRandomStaticLocation_mem _⟩
  simp only [generateLocationWithLLM]
  split
  · rfl
  · split
    · rfl
    · cases hc : ora.createModel with
      | error e => rfl
      | ok b =>
        cases b
        · rfl
        · rw [h1]
          simp [h2]

/-- C2 (amended): whenever the two-stage parse yields no location the
resolver returns a member of the Static Location Catalog; a stage-one parse
producing an object with a missing or falsy required field makes the parser
return null immediately; and an input that fails stage-one parsing and whose
text admits no loose `\x7b … "country" … "landmark" … \x7d` extraction also
parses to null.  (Totality of the Lean functions models "does not throw".) -/
theorem parser_and_resolver_fall_back :
    (∀ (content : Chars) (d : Json),
      jsonParse (trimChars ((fencedExtract content).getD content)) = some d →
      d ≠ .null →
      (truthyOpt (jsonGetField d "country".data) = false ∨
        truthyOpt (jsonGetField d "landmark".data) = false ∨
        truthyOpt (jsonGetField d "landscapeUrl".data) = false) →
      parseLocation content = none) ∧
    (∀ (cfg : Config) (ora : LlmOracle) (cu : Int) (content : String),
      ora.invokeContent = .ok content →
      parseLocation content.data = none →
      ∃ loc : Location, (generateLocationWithLLM cfg ora cu).1 = .fromCatalog loc ∧
        loc ∈ LOCATIONS) ∧
    (∀ content : Chars,
      jsonParse (trimChars ((fencedExtract content).getD content)) = none →
      looseExtract content = none →
      parseLocation content = none) := by
  refine ⟨?_, resolver_static_of_parse_none, ?_⟩
  · intro content d hp hd hm
    exact parseLocationResponse_retNull (content.length + 1) content
      (tryParseValidate_retNull_of_missing _ d hp hd hm)
  · intro content hp hl
    refine parseLocationResponse_threw_no_loose (content.length + 1) content ?_ hl
    simp [tryParseValidate, hp]

/-- Counterexample to C2 as stated: `demoFenced` is malformed JSON as a raw
text (stage-one `JSON.parse` on it throws), yet the parser recovers a
location from its fenced block and the resolver returns the generated
location, not a catalog entry. -/
theorem malformed_text_recovered_cx :
    jsonParse (trimChars demoFenced.data) = none ∧
    (parseLocation demoFenced.data).isSome = true ∧
    (generateLocationWithLLM demoCfg { demoOra with invokeContent := .ok demoFenced } 0).1.isFromLLM
      = true := by
  refine ⟨by rfl, by rfl, by rfl⟩

/-- LLM answer with a well-formed object missing the required photo URL. -/
def demoMissing : String := "\x7b\"country\":\"A\",\"landmark\":\"B\"\x7d"

/-- Parse of `demoMissing` as produced by the JSON parser. -/
def demoMissingJson : Json :=
  .obj [("country".data, .str "A".data), ("landmark".data, .str "B".data)]

/-- Witness for C2 (amended) at concrete inputs. -/
theorem parser_and_resolver_fall_back_witness :
    parseLocation demoMissing.data = none ∧
    (∃ loc : Location, (generateLocationWithLLM demoCfg demoOra 0).1 = .fromCatalog loc ∧
      loc ∈ LOCATIONS) ∧
    parseLocation "junk".data = none :=
  ⟨parser_and_resolver_fall_back.1 demoMissing.data demoMissingJson (by rfl)
      (fun h => Json.noConfusion h) (Or.inr (Or.inr (by rfl))),
   parser_and_resolver_fall_back.2.1 demoCfg demoOra 0 "not json" rfl (by rfl),
   parser_and_resolver_fall_back.2.2 "junk".data (by rfl) (by rfl)⟩

theorem http_prefix_synthesizedUrl (a b : Json) :
    "http".data.isPrefixOf (synthesizedUrl a b) = true := rfl

theorem validateLocationData_ok_spec (data : Json) (loc : JLocation)
    (h : validateLocationData data = .ok loc) :
    jsonGetField data "country".data = some loc.country ∧
    jsonGetField data "landmark".data = some loc.landmark ∧
    loc.countryZh = jsOrJ (jsonGetField data "countryZh".data) loc.country ∧
    loc.city = jsOrJ (jsonGetField data "city".data) (.str []) ∧
    loc.landmarkZh = jsOrJ (jsonGetField data "landmarkZh".data) loc.landmark ∧
    loc.timezone = jsOrJ (jsonGetField data "timezone".data) (.str "UTC".data) ∧
    (∃ url : Chars, loc.landscapeUrl = .str url ∧ "http".data.isPrefixOf url = true) ∧
    (∀ u0 : Chars, jsonGetField data "landscapeUrl".data = some (.str u0) →
      "http".data.isPrefixOf u0 = false →
      loc.landscapeUrl = .str (synthesizedUrl loc.landmark loc.country)) := by
  simp only [validateLocationData] at h
  split at h
  · cases h
  · cases hc : jsonGetField data "country".data with
    | none => rw [hc] at h; cases h
    | some cj =>
      cases hl : jsonGetField data "landmark".data with
      | none => rw [hc, hl] at h; cases h
      | some lj =>
        cases hu : jsonGetField data "landscapeUrl".data with
        | none => rw [hc, hl, hu] at h; cases h
        | some uj =>
          rw [hc, hl, hu] at h
          cases uj with
          | str url =>
            dsimp only at h
            by_cases hh : "http".data.isPrefixOf url = true
            · rw [if_pos hh] at h
              cases h
              refine ⟨rfl, rfl, rfl, rfl, rfl, rfl, ⟨url, rfl, hh⟩, ?_⟩
              intro u0 hu0 hf
              simp only [Option.some.injEq, Json.str.injEq] at hu0
              subst hu0
              exact absurd hh (by simp [hf])
            · rw [if_neg hh] at h
              cases h
              refine ⟨rfl, rfl, rfl, rfl, rfl, rfl,
                ⟨synthesizedUrl lj cj, rfl, http_prefix_synthesizedUrl lj cj⟩, ?_⟩
              intro u0 hu0 hf
              rfl
          | null => dsimp only at h; cases h
          | bool b => dsimp only at h; cases h
          | num m e => dsimp only at h; cases h
          | arr xs => dsimp only at h; cases h
          | obj fs => dsimp only at h; cases h

theorem tryParseValidate_ok_data (s : Chars) (loc : JLocation)
    (h : tryParseValidate s = .ok loc) :
    ∃ d : Json, jsonParse (trimChars s) = some d ∧ validateLocationData d = .ok loc := by
  unfold tryParseValidate at h
  cases hp : jsonParse (trimChars s) with
  | none => rw [hp] at h; cases h
  | some d =>
    rw [hp] at h
    cases d with
    | null => cases h
    | bool b => exact ⟨_, rfl, h⟩
    | num m e => exact ⟨_, rfl, h⟩
    | str cs => exact ⟨_, rfl, h⟩
    | arr xs => exact ⟨_, rfl, h⟩
    | obj fs => exact ⟨_, rfl, h⟩

theorem parseLocationResponse_ok_stage (fuel : Nat) (content : Chars) (loc : JLocation)
    (h : parseLocationResponse fuel content = some loc) :
    ∃ s : Chars, tryParseValidate s = .ok loc := by
  induction fuel generalizing content with
  | zero => simp [parseLocationResponse] at h
  | succ n ih =>
    rw [parseLocationResponse] at h
    cases htv : tryParseValidate ((fencedExtract content).getD content) with
    | ok l =>
      rw [htv] at h
      simp only [Option.some.injEq] at h
      exact ⟨_, h ▸ htv⟩
    | retNull => rw [htv] at h; cases h
    | threw =>
      rw [htv] at h
      cases hle : looseExtract content with
      | some sub => rw [hle] at h; exact ih sub h
      | none => rw [hle] at h; cases h

/-- C6: every successfully parsed LLM response yields a location whose
localized country/landmark names default to the canonical ones, whose
timezone defaults to "UTC", whose photo URL is a string starting with
"http", and whose photo URL is the synthesized absolute search-style URL
(URL-encoded landmark and country) whenever the parsed one did not start
with "http". -/
theorem parse_success_fills_defaults (content : Chars) (loc : JLocation)
    (h : parseLocation content = some loc) :
    ∃ (s : Chars) (d : Json), jsonParse (trimChars s) = some d ∧
      jsonGetField d "country".data = some loc.country ∧
      jsonGetField d "landmark".data = some loc.landmark ∧
      loc.countryZh = jsOrJ (jsonGetField d "countryZh".data) loc.country ∧
      loc.city = jsOrJ (jsonGetField d "city".data) (.str []) ∧
      loc.landmarkZh = jsOrJ (jsonGetField d "landmarkZh".data) loc.landmark ∧
      loc.timezone = jsOrJ (jsonGetField d "timezone".data) (.str "UTC".data) ∧
      (∃ url : Chars, loc.landscapeUrl = .str url ∧ "http".data.isPrefixOf url = true) ∧
      (∀ u0 : Chars, jsonGetField d "landscapeUrl".data = some (.str u0) →
        "http".data.isPrefixOf u0 = false →
        loc.landscapeUrl = .str (synthesizedUrl loc.landmark loc.country)) := by
  obtain ⟨s, hs⟩ := parseLocationResponse_ok_stage _ content loc h
  obtain ⟨d, hd, hv⟩ := tryParseValidate_ok_data s loc hs
  exact ⟨s, d, hd, validateLocationData_ok_spec d loc hv⟩

/-- LLM answer whose photo URL is not absolute. -/
def demoGood : String := "\x7b\"country\":\"A\",\"landmark\":\"B\",\"landscapeUrl\":\"x\"\x7d"

/-- Location parsed out of `demoGood`: defaults filled, URL synthesized. -/
def demoGoodLoc : JLocation :=
  { country := .str "A".data
    countryZh := .str "A".data
    city := .str []
    landmark := .str "B".data
    landmarkZh := .str "B".data
    timezone := .str "UTC".data
    landscapeUrl := .str "https://images.unsplash.com/featured/?B,A".data }

/-- Witness for C6 at a concrete response with missing localized fields and
a non-HTTP photo URL. -/
theorem parse_success_fills_defaults_witness :
    parseLocation demoGood.data = some demoGoodLoc ∧
    (∃ (s : Chars) (d : Json), jsonParse (trimChars s) = some d ∧
      jsonGetField d "country".data = some demoGoodLoc.country ∧
      jsonGetField d "landmark".data = some demoGoodLoc.landmark ∧
      demoGoodLoc.countryZh = jsOrJ (jsonGetField d "countryZh".data) demoGoodLoc.country ∧
      demoGoodLoc.city = jsOrJ (jsonGetField d "city".data) (.str []) ∧
      demoGoodLoc.landmarkZh = jsOrJ (jsonGetField d "landmarkZh".data) demoGoodLoc.landmark ∧
      demoGoodLoc.timezone = jsOrJ (jsonGetField d "timezone".data) (.str "UTC".data) ∧
      (∃ url : Chars, demoGoodLoc.landscapeUrl = .str url ∧ "http".data.isPrefixOf url = true) ∧
      (∀ u0 : Chars, jsonGetField d "landscapeUrl".data = some (.str u0) →
        "http".data.isPrefixOf u0 = false →
        demoGoodLoc.landscapeUrl
          = .str (synthesizedUrl demoGoodLoc.landmark demoGoodLoc.country))) :=
  ⟨by rfl, parse_success_fills_defaults demoGood.data demoGoodLoc (by rfl)⟩

/-- First-match association lookup (JavaScript property read on the
modelled object). -/
def lookupKey (m : List (String × Int)) (k : String) : Option Int :=
  match m with
  | [] => none
  | p :: rest => if p.1 = k then some p.2 else lookupKey rest k

theorem lookupKey_bumpHour_same (m : List (String × Int)) (k : String) :
    lookupKey (bumpHour m k) k = some ((lookupKey m k).getD 0 + 1) := by
  induction m with
  | nil => simp [bumpHour, lookupKey]
  | cons p rest ih =>
    by_cases hp : p.1 = k
    · by_cases h0 : p.2 = 0 <;> simp [bumpHour, lookupKey, hp, h0]
    · simp [bumpHour, lookupKey, hp, ih]

theorem lookupKey_bumpHour_other (m : List (String × Int)) (k k' : String) (h : k' ≠ k) :
    lookupKey (bumpHour m k) k' = lookupKey m k' := by
  induction m with
  | nil => simp [bumpHour, lookupKey, Ne.symm h]
  | cons p rest ih =>
    by_cases hp : p.1 = k
    · simp [bumpHour, lookupKey, hp, Ne.symm h]
    · by_cases hpk : p.1 = k'
      · simp [bumpHour, lookupKey, hp, hpk, h]
      · simp [bumpHour, lookupKey, hp, hpk, ih]

theorem applyMwUpdate_lastNightOwlDate (st : Option UserStateRow) (u : MwUpdate)
    (n : Int) (d : CalDay) (h : u.nightOwl = some (n, d)) :
    (applyMwUpdate st u).lastNightOwlDate = some d := by
  simp [applyMwUpdate, h]

theorem messageStatsUpdate_nightOwl_none_of_sameDay (cfg : Config) (row : UserStateRow)
    (now2 : LocalNow) (h : row.lastNightOwlDate = some now2.day) :
    (messageStatsUpdate cfg (some row) now2).nightOwl = none := by
  simp only [messageStatsUpdate]
  split
  · simp [h]
  · rfl

/-- C10: for every qualifying message, the night-owl counter is bumped
exactly when the feature is enabled, the hour lies in the (possibly
wrapping) half-open window, and the stored `lastNightOwlDate` is not the
message's calendar day; the bump adds one and stamps today; the total,
night and hourly counters only increment (the message's hour bucket by one,
all others untouched); and after a bump, a second message on the same
calendar day never bumps again. -/
theorem night_owl_once_per_day (cfg : Config) (st : Option UserStateRow)
    (now : LocalNow) (uip hc he : Bool)
    (hg1 : uip = true) (hg2 : hc = true ∨ he = true) :
    ∃ u : MwUpdate,
      messageStatsMiddleware cfg uip hc he st now = some u ∧
      (u.nightOwl.isSome = true ↔
        (cfg.nightOwlEnabled = true ∧
          isNightOwlTime (cfg.nightOwlStartHour.getD 0) (cfg.nightOwlEndHour.getD 5) now.hour
            = true ∧
          ¬(st.bind (fun r => r.lastNightOwlDate)) = some now.day)) ∧
      (∀ (n : Int) (d : CalDay), u.nightOwl = some (n, d) →
        n = (st.bind (fun r => r.nightOwlCount)).getD 0 + 1 ∧ d = now.day) ∧
      u.totalMessageCount = (st.bind (fun r => r.totalMessageCount)).getD 0 + 1 ∧
      u.nightMessageCount = (st.bind (fun r => r.nightMessageCount)).getD 0 +
        (if isNightOwlTime (cfg.nightOwlStartHour.getD 0) (cfg.nightOwlEndHour.getD 5) now.hour
          then 1 else 0) ∧
      lookupKey u.hourlyMessageCounts (toString now.hour)
        = some ((lookupKey ((st.bind (fun r => r.hourlyMessageCounts)).getD [])
            (toString now.hour)).getD 0 + 1) ∧
      (∀ k : String, k ≠ toString now.hour →
        lookupKey u.hourlyMessageCounts k
          = lookupKey ((st.bind (fun r => r.hourlyMessageCounts)).getD []) k) ∧
      (∀ (n : Int) (d : CalDay) (now2 : LocalNow), u.nightOwl = some (n, d) →
        now2.day = now.day →
        (messageStatsUpdate cfg (some (applyMwUpdate st u)) now2).nightOwl = none) := by
  subst hg1
  have hguard : messageStatsMiddleware cfg true hc he st now
      = some (messageStatsUpdate cfg st now) := by
    rcases hg2 with h | h <;> subst h <;> simp [messageStatsMiddleware]
  refine ⟨messageStatsUpdate cfg st now, hguard, ?_, ?_, ?_, ?_, ?_, ?_, ?_⟩
  · -- bump iff enabled, in window, and not already recorded today
    simp only [messageStatsUpdate]
    by_cases hen : cfg.nightOwlEnabled = true
    · by_cases hw : isNightOwlTime (cfg.nightOwlStartHour.getD 0)
          (cfg.nightOwlEndHour.getD 5) now.hour = true
      · cases st with
        | none => simp [hen, hw]
        | some row =>
          cases hd : row.lastNightOwlDate with
          | none => simp [hen, hw, hd]
          | some d0 =>
            by_cases hsame : d0 = now.day
            · simp [hen, hw, hd, hsame]
            · simp [hen, hw, hd, hsame]
      · simp [hen, hw]
    · simp [hen]
  · -- bump value and date
    intro n d hnd
    simp only [messageStatsUpdate] at hnd
    split at hnd
    · split at hnd
      · cases hnd
      · cases hnd
        constructor
        · cases st with
          | none => rfl
          | some row => rfl
        · rfl
    · cases hnd
  · -- total counter
    cases st <;> rfl
  · -- night counter
    cases st <;> rfl
  · -- hourly bucket incremented
    simp only [messageStatsUpdate]
    cases st with
    | none => exact lookupKey_bumpHour_same _ _
    | some row => exact lookupKey_bumpHour_same _ _
  · -- other hourly buckets unchanged
    intro k hk
    simp only [messageStatsUpdate]
    cases st with
    | none => exact lookupKey_bumpHour_other _ _ _ hk
    | some row => exact lookupKey_bumpHour_other _ _ _ hk
  · -- at most once per calendar day
    intro n d now2 hnd hday
    have hd : d = now.day := by
      simp only [messageStatsUpdate] at hnd
      split at hnd
      · split at hnd
        · cases hnd
        · cases hnd; rfl
      · cases hnd
    apply messageStatsUpdate_nightOwl_none_of_sameDay
    rw [applyMwUpdate_lastNightOwlDate st _ n d hnd, hd, hday]

/-- Fixture stored row: last night-owl bump on the previous calendar day. -/
def demoRow : UserStateRow :=
  { nightOwlCount := some 4
    lastNightOwlDate := some ⟨2024, 0, 14⟩
    totalMessageCount := some 100
    nightMessageCount := some 20
    hourlyMessageCounts := some [("2", 3)] }

/-- Fixture message instant: 02:00 inside the default 0-5 window. -/
def demoNow : LocalNow := { day := ⟨2024, 0, 15⟩, hour := 2 }

/-- Witness for C10 at the fixtures. -/
theorem night_owl_once_per_day_witness :
    ∃ u : MwUpdate,
      messageStatsMiddleware demoCfg true true false (some demoRow) demoNow = some u ∧
      (u.nightOwl.isSome = true ↔
        (demoCfg.nightOwlEnabled = true ∧
          isNightOwlTime (demoCfg.nightOwlStartHour.getD 0) (demoCfg.nightOwlEndHour.getD 5)
            demoNow.hour = true ∧
          ¬((some demoRow).bind (fun r => r.lastNightOwlDate)) = some demoNow.day)) ∧
      (∀ (n : Int) (d : CalDay), u.nightOwl = some (n, d) →
        n = ((some demoRow).bind (fun r => r.nightOwlCount)).getD 0 + 1 ∧ d = demoNow.day) ∧
      u.totalMessageCount = ((some demoRow).bind (fun r => r.totalMessageCount)).getD 0 + 1 ∧
      u.nightMessageCount = ((some demoRow).bind (fun r => r.nightMessageCount)).getD 0 +
        (if isNightOwlTime (demoCfg.nightOwlStartHour.getD 0) (demoCfg.nightOwlEndHour.getD 5)
          demoNow.hour then 1 else 0) ∧
      lookupKey u.hourlyMessageCounts (toString demoNow.hour)
        = some ((lookupKey (((some demoRow).bind (fun r => r.hourlyMessageCounts)).getD [])
            (toString demoNow.hour)).getD 0 + 1) ∧
      (∀ k : String, k ≠ toString demoNow.hour →
        lookupKey u.hourlyMessageCounts k
          = lookupKey (((some demoRow).bind (fun r => r.hourlyMessageCounts)).getD []) k) ∧
      (∀ (n : Int) (d : CalDay) (now2 : LocalNow), u.nightOwl = some (n, d) →
        now2.day = demoNow.day →
        (messageStatsUpdate demoCfg (some (applyMwUpdate (some demoRow) u)) now2).nightOwl
          = none) :=
  night_owl_once_per_day demoCfg (some demoRow) demoNow true true false rfl (Or.inl rfl)

/-- Fixture user for orchestrator runs. -/
def demoUser : UserInfo := { userId := "u1", username := "U", avatarUrl := "" }

/-- Fixture travel oracle: AIGC unavailable, card rendering throws, storage
unavailable — the degraded path of the orchestrator. -/
def demoTravelOra : TravelOracle :=
  { llm := demoOra
    mediaLunaAvailable := false
    storageAvailable := false
    aigc := fun _ => .failed
    cardRender := fun _ => .error ()
    storageUpload := fun _ => .error ()
    timestamp := 1700000000 }

/-- Witness for C1 on a fully degraded concrete run. -/
theorem travel_inserts_exactly_one_row_witness :
    (∃ row : PigTravelRow,
      (triggerTravelSequence demoCfg demoUser "qq" "g1" demoTravelOra 0 []).2.2 = [] ++ [row] ∧
      ((triggerTravelSequence demoCfg demoUser "qq" "g1" demoTravelOra 0 []).1.imageUrl = none →
        row.imagePath = "")) ∧
    (triggerTravelSequence demoCfg demoUser "qq" "g1" demoTravelOra 0 []).2.2.length
      = ([] : List PigTravelRow).length + 1 :=
  travel_inserts_exactly_one_row demoCfg demoUser "qq" "g1" demoTravelOra 0 []
